import Mathlib

/-!
Verification of the SongMatch backend matching and caching services.

The TypeScript sources are shallowly embedded below:
* `MatchingService` (packages/backend/src/services/matching.service.ts):
  similarity primitives, the three weighted layers, confidence, explanation,
  and `calculateMatch`.  JavaScript numbers are modelled by the exact
  rationals `Rat`; `Math.round` (half toward positive infinity) is `jsRound`.
* `MatchCacheService` (services/matchCache.service.ts): cache key,
  cached-match lookup, `getMatch`, and `getCacheStats`.  The Redis
  backend is modelled by explicit read/write outcomes (`KVRead`).
* `SongCacheService` (services/songCache.service.ts): `getCachedSong` and
  `getSongById`, with the Prisma store modelled as an explicit stored row,
  the Spotify fetch as an explicit fetch outcome, and lazy expiry on read.

JavaScript truthiness on the optional metadata fields is modelled
explicitly: a missing genre list is `none` (an empty list is truthy in JS),
a missing artist is `none` or the empty string, a missing release year is
`none` or `0` (the Spotify converter stores `0` for an unknown year).
-/

namespace SongMatch

/-- JavaScript `Math.round`: rounds half toward positive infinity. -/
def jsRound (x : ℚ) : ℤ := ⌊x + 1/2⌋

/-- AudioFeatures (types/music.types.ts): nine mandatory numeric fields and
three optional metadata fields. -/
structure AudioFeatures where
  valence : ℚ
  energy : ℚ
  danceability : ℚ
  tempo : ℚ
  acousticness : ℚ
  key : ℕ
  mode : ℕ
  timeSignature : ℕ
  loudness : ℚ
  durationMs : ℚ
  genres : Option (List String)
  artist : Option String
  releaseYear : Option ℕ

/-- The mandatory-field ranges of a valid feature vector (spec section 3). -/
def ValidFeatures (f : AudioFeatures) : Prop :=
  0 ≤ f.valence ∧ f.valence ≤ 1 ∧
  0 ≤ f.energy ∧ f.energy ≤ 1 ∧
  0 ≤ f.danceability ∧ f.danceability ≤ 1 ∧
  0 ≤ f.acousticness ∧ f.acousticness ≤ 1 ∧
  0 < f.tempo ∧
  f.key < 12 ∧ f.mode ≤ 1 ∧
  -60 ≤ f.loudness ∧ f.loudness ≤ 0 ∧
  0 < f.durationMs

instance (f : AudioFeatures) : Decidable (ValidFeatures f) := by
  unfold ValidFeatures; infer_instance

/-- JS truthiness of `f.genres && f.genres.length > 0` (an empty array is
truthy, so the length test carries the content). -/
def hasGenres (f : AudioFeatures) : Bool :=
  match f.genres with
  | some l => decide (0 < l.length)
  | none => false

/-- JS truthiness of an optional string: present and non-empty. -/
def strTruthy : Option String → Bool
  | some s => !(s == "")
  | none => false

/-- JS truthiness of `f.artist`. -/
def hasArtist (f : AudioFeatures) : Bool := strTruthy f.artist

/-- JS truthiness of an optional number: present and non-zero. -/
def natTruthy : Option ℕ → Bool
  | some n => !(n == 0)
  | none => false

/-- JS truthiness of `f.releaseYear`. -/
def hasYear (f : AudioFeatures) : Bool := natTruthy f.releaseYear

/-- `continuousSimilarity`: `1 - Math.abs(v1 - v2)`. -/
def continuousSimilarity (v1 v2 : ℚ) : ℚ := 1 - |v1 - v2|

/-- `tempoSimilarity`: octave-aware tempo similarity. -/
def tempoSimilarity (bpm1 bpm2 : ℚ) : ℚ :=
  let ratio := max bpm1 bpm2 / min bpm1 bpm2
  if |ratio - 2| < 0.1 ∨ |ratio - 0.5| < 0.1 then 0.7
  else max 0 (1 - |bpm1 - bpm2| / 50)

/-- `CIRCLE_OF_FIFTHS`: the key numbers in circle-of-fifths order
C, G, D, A, E, B, F sharp, C sharp, G sharp, D sharp, A sharp, F. -/
def CIRCLE_OF_FIFTHS : List ℕ := [0, 7, 2, 9, 4, 11, 6, 1, 8, 3, 10, 5]

/-- One entry of `buildCircleDistanceMatrix`: the shortest circular distance
between the positions of keys `i` and `j` in `CIRCLE_OF_FIFTHS` (the source
precomputes the full 12 by 12 matrix; the entry formula is embedded). -/
def circleDistance (i j : ℕ) : ℕ :=
  let pos1 := CIRCLE_OF_FIFTHS.indexOf i
  let pos2 := CIRCLE_OF_FIFTHS.indexOf j
  let clockwise := max pos1 pos2 - min pos1 pos2
  min clockwise (12 - clockwise)

/-- `keySimilarity`: Circle-of-Fifths based key and mode similarity. -/
def keySimilarity (key1 mode1 key2 mode2 : ℕ) : ℚ :=
  if key1 = key2 ∧ mode1 = mode2 then 1
  else if key1 = key2 then 0.7
  else
    let distance : ℚ := circleDistance key1 key2
    let similarity := 1 - distance / 6
    if mode1 = mode2 then similarity else similarity * 0.8

/-- `timeSignatureSimilarity`. -/
def timeSignatureSimilarity (ts1 ts2 : ℕ) : ℚ :=
  if ts1 = ts2 then 1
  else if (ts1 = 6 ∧ ts2 = 3) ∨ (ts1 = 3 ∧ ts2 = 6) then 0.7
  else 0.3

/-- `loudnessSimilarity`: normalize dB from [-60, 0] to [0, 1]. -/
def loudnessSimilarity (db1 db2 : ℚ) : ℚ :=
  let norm1 := (db1 + 60) / 60
  let norm2 := (db2 + 60) / 60
  1 - |norm1 - norm2|

/-- `durationSimilarity`: stepwise then linear decay on the difference in
seconds. -/
def durationSimilarity (ms1 ms2 : ℚ) : ℚ :=
  let diff := |ms1 - ms2| / 1000
  if diff < 10 then 1
  else if diff < 30 then 0.8
  else if diff < 60 then 0.6
  else max 0 (1 - diff / 300)

/-- `genreSimilarity`: Jaccard index of the case-folded genre sets, with a
neutral 0.5 when either list is empty. -/
def genreSimilarity (genres1 genres2 : List String) : ℚ :=
  if genres1.length = 0 ∨ genres2.length = 0 then 0.5
  else
    let set1 := (genres1.map String.toLower).toFinset
    let set2 := (genres2.map String.toLower).toFinset
    ((set1 ∩ set2).card : ℚ) / ((set1 ∪ set2).card : ℚ)

/-- `artistSimilarity`: exact equality, neutral 0.5 when either side is
absent (JS falsy). -/
def artistSimilarity (artist1 artist2 : Option String) : ℚ :=
  if !(strTruthy artist1) ∨ !(strTruthy artist2) then 0.5
  else if artist1 = artist2 then 1 else 0

/-- `eraSimilarity`: decade-bucketed release-year similarity, neutral 0.5
when either year is absent (JS falsy, including year 0). -/
def eraSimilarity (year1 year2 : Option ℕ) : ℚ :=
  if !(natTruthy year1) ∨ !(natTruthy year2) then 0.5
  else
    let decade1 : ℚ := ((year1.getD 0 / 10) * 10 : ℕ)
    let decade2 : ℚ := ((year2.getD 0 / 10) * 10 : ℕ)
    if decade1 = decade2 then 1
    else max 0 (1 - (|decade1 - decade2| / 10) / 5)

/-- Layer 1 result: the component similarities and the normalized layer
score (the components' constant weights, labels and copied raw values are
not repeated here). -/
structure Layer1Result where
  valence : ℚ
  energy : ℚ
  danceability : ℚ
  tempo : ℚ
  acousticness : ℚ
  score : ℚ

/-- `calculateLayer1`: high-level features, total weight 0.6. -/
def calculateLayer1 (f1 f2 : AudioFeatures) : Layer1Result :=
  let v := continuousSimilarity f1.valence f2.valence
  let e := continuousSimilarity f1.energy f2.energy
  let d := continuousSimilarity f1.danceability f2.danceability
  let t := tempoSimilarity f1.tempo f2.tempo
  let a := continuousSimilarity f1.acousticness f2.acousticness
  { valence := v, energy := e, danceability := d, tempo := t, acousticness := a,
    score := (v * 0.15 + e * 0.15 + d * 0.12 + t * 0.1 + a * 0.08) / 0.6 }

/-- Layer 2 result: component similarities and normalized score. -/
structure Layer2Result where
  keyMode : ℚ
  timeSignature : ℚ
  loudness : ℚ
  duration : ℚ
  score : ℚ

/-- `calculateLayer2`: musical structure, total weight 0.25. -/
def calculateLayer2 (f1 f2 : AudioFeatures) : Layer2Result :=
  let k := keySimilarity f1.key f1.mode f2.key f2.mode
  let ts := timeSignatureSimilarity f1.timeSignature f2.timeSignature
  let l := loudnessSimilarity f1.loudness f2.loudness
  let d := durationSimilarity f1.durationMs f2.durationMs
  { keyMode := k, timeSignature := ts, loudness := l, duration := d,
    score := (k * 0.1 + ts * 0.05 + l * 0.05 + d * 0.05) / 0.25 }

/-- Layer 3 result: component similarities and normalized score. -/
structure Layer3Result where
  genre : ℚ
  artist : ℚ
  era : ℚ
  score : ℚ

/-- `calculateLayer3`: genre and metadata, total weight 0.15
(`f.genres || []` defaults a missing list to the empty list). -/
def calculateLayer3 (f1 f2 : AudioFeatures) : Layer3Result :=
  let g := genreSimilarity (f1.genres.getD []) (f2.genres.getD [])
  let a := artistSimilarity f1.artist f2.artist
  let e := eraSimilarity f1.releaseYear f2.releaseYear
  { genre := g, artist := a, era := e,
    score := (g * 0.08 + a * 0.04 + e * 0.03) / 0.15 }

/-- `calculateConfidence`: the 9 mandatory signals always count; each of the
three optional signals counts only when truthy on both sides; divided by the
total of 12 tracked signals. -/
def calculateConfidence (f1 f2 : AudioFeatures) : ℚ :=
  let availableFeatures : ℕ :=
    5 + 4
    + (if hasGenres f1 && hasGenres f2 then 1 else 0)
    + (if hasArtist f1 && hasArtist f2 then 1 else 0)
    + (if hasYear f1 && hasYear f2 then 1 else 0)
  let totalFeatures : ℕ := 5 + 4 + 3
  (availableFeatures : ℚ) / (totalFeatures : ℚ)

/-- `getMoodDescription`. -/
def getMoodDescription (valence energy : ℚ) : String :=
  if valence > 0.7 ∧ energy > 0.7 then "Upbeat and energetic"
  else if valence > 0.7 ∧ energy < 0.4 then "Happy but calm"
  else if valence < 0.4 ∧ energy > 0.7 then "Intense and dark"
  else if valence < 0.4 ∧ energy < 0.4 then "Melancholic and subdued"
  else "Moderate mood and energy"

/-- `getRhythmDescription`. -/
def getRhythmDescription (tempo danceability : ℚ) : String :=
  let speed := if tempo < 90 then "slow" else if tempo < 120 then "moderate" else "fast"
  let dance :=
    if danceability > 0.7 then "very danceable"
    else if danceability > 0.4 then "somewhat danceable"
    else "not very danceable"
  speed ++ " tempo (" ++ toString (jsRound tempo) ++ " BPM), " ++ dance

/-- `getHarmonyDescription` (an out-of-range key indexes past the array and
renders as undefined in JS). -/
def getHarmonyDescription (key mode : ℕ) : String :=
  let keys := ["C", "C#", "D", "D#", "E", "F"] ++ ["F#", "G", "G#", "A", "A#", "B"]
  let keyName := keys.getD key "undefined"
  let modeName := if mode = 1 then "Major" else "Minor"
  keyName ++ " " ++ modeName

/-- `getStyleDescription`. -/
def getStyleDescription (genres : Option (List String)) (artist : Option String) : String :=
  match genres with
  | none => if strTruthy artist then artist.getD "" else "Unknown style"
  | some l =>
    if l.length = 0 then (if strTruthy artist then artist.getD "" else "Unknown style")
    else
      String.intercalate ", " (l.take 2)
        ++ (if strTruthy artist then " by " ++ artist.getD "" else "")

/-- The `details` block of a match explanation. -/
structure ExplanationDetails where
  mood : String
  rhythm : String
  harmony : String
  style : String
deriving DecidableEq

/-- `MatchExplanation` (processing metadata aside). -/
structure MatchExplanation where
  summary : String
  strengths : List String
  weaknesses : List String
  details : ExplanationDetails

/-- `generateExplanation`: threshold-driven strengths and weaknesses (in
source push order), a summary bucketed by the overall score, and four
detail descriptions derived from the first song only. -/
def generateExplanation (f1 f2 : AudioFeatures)
    (layer1 : Layer1Result) (layer2 : Layer2Result) (layer3 : Layer3Result)
    (overallScore : ℤ) : MatchExplanation :=
  let strengths :=
    (if layer1.valence > 0.8 then ["Very similar mood and emotional tone"] else [])
    ++ (if layer1.energy > 0.8 then ["Matching energy levels"] else [])
    ++ (if layer1.tempo > 0.7 then ["Similar tempo and rhythm"] else [])
    ++ (if layer2.keyMode > 0.8 then ["Harmonically compatible (similar key/mode)"] else [])
    ++ (if f1.genres.isSome && f2.genres.isSome && decide (layer3.genre > 0.5)
        then ["Shared musical genres"] else [])
  let weaknesses :=
    (if layer1.valence > 0.8 then []
     else if layer1.valence < 0.5 then ["Different emotional vibes (one more positive/upbeat)"]
     else [])
    ++ (if layer1.energy > 0.8 then []
        else if layer1.energy < 0.5 then ["Contrasting energy (one more intense than the other)"]
        else [])
    ++ (if layer1.tempo > 0.7 then []
        else if layer1.tempo < 0.5 then ["Different tempo/speed"]
        else [])
    ++ (if layer2.keyMode > 0.8 then []
        else if layer2.keyMode < 0.5 then ["Different harmonic structure (key/mode mismatch)"]
        else [])
    ++ (if f1.genres.isSome && f2.genres.isSome && decide (layer3.genre > 0.5) then []
        else if f1.genres.isSome && f2.genres.isSome && decide (layer3.genre < 0.2)
        then ["Different genres"]
        else [])
  let summary :=
    if overallScore ≥ 80 then "These songs are very similar and would pair well together!"
    else if overallScore ≥ 60 then "These songs share some similarities but have notable differences."
    else if overallScore ≥ 40 then "These songs have some common elements but differ in key aspects."
    else "These songs don\x27t match well - they\x27re quite different."
  { summary := summary
    strengths := strengths
    weaknesses := weaknesses
    details :=
      { mood := getMoodDescription f1.valence f1.energy
        rhythm := getRhythmDescription f1.tempo f1.danceability
        harmony := getHarmonyDescription f1.key f1.mode
        style := getStyleDescription f1.genres f1.artist } }

/-- `MatchResult` (the wall-clock `processingTime` field is timing metadata
and is not modelled; `breakdown` is flattened into the three layer
results). -/
structure MatchResult where
  overallScore : ℤ
  confidence : ℚ
  layer1 : Layer1Result
  layer2 : Layer2Result
  layer3 : Layer3Result
  explanation : MatchExplanation
  algorithmVersion : String

/-- `MatchingService.calculateMatch`: three weighted layers, rounded
0 to 100 overall score, confidence and explanation. -/
def calculateMatch (features1 features2 : AudioFeatures) : MatchResult :=
  let layer1 := calculateLayer1 features1 features2
  let layer2 := calculateLayer2 features1 features2
  let layer3 := calculateLayer3 features1 features2
  let overallScore :=
    jsRound ((layer1.score * 0.6 + layer2.score * 0.25 + layer3.score * 0.15) * 100)
  let confidence := calculateConfidence features1 features2
  let explanation := generateExplanation features1 features2 layer1 layer2 layer3 overallScore
  { overallScore := overallScore
    confidence := confidence
    layer1 := layer1
    layer2 := layer2
    layer3 := layer3
    explanation := explanation
    algorithmVersion := "1.0" }

/-- Outcome of a key-value store (or upstream) operation: a value, or a
failure of the store itself. -/
inductive KVRead (α : Type) where
  | ok : α → KVRead α
  | err : KVRead α
deriving DecidableEq

namespace MatchCacheService

/-- `getCacheKey`: sort the two ids lexicographically (JS default array
sort), then prepend the prefix string and join with a colon. -/
def getCacheKey (song1Id song2Id : String) : String :=
  let sorted := if song1Id ≤ song2Id then (song1Id, song2Id) else (song2Id, song1Id)
  "match:" ++ sorted.1 ++ ":" ++ sorted.2

/-- `getCachedMatch`: a store read failure is caught, logged and treated as
a miss (`null`). -/
def getCachedMatch (readResult : KVRead (Option MatchResult)) : Option MatchResult :=
  match readResult with
  | .ok v => v
  | .err => none

/-- `getMatch`: consult the cache unless bypassed; on miss compute the
match and issue a fire-and-forget cache write whose outcome
(`writeResult`) is logged on failure and never reaches the caller. -/
def getMatch (readResult : KVRead (Option MatchResult)) (writeResult : KVRead Unit)
    (features1 features2 : AudioFeatures) (bypassCache : Bool) : MatchResult :=
  match (if bypassCache then none else getCachedMatch readResult) with
  | some cached => cached
  | none =>
    let result := calculateMatch features1 features2
    let _ := writeResult
    result

/-- The record returned by `getCacheStats`. -/
structure CacheStats where
  totalKeys : ℕ
  estimatedSize : ℤ
  oldestKey : Option String
deriving DecidableEq

/-- `getCacheStats`: entry count; byte size extrapolated from the first
min(10, n) sampled values; and the `oldestKey` loop over the first 100
keys, which keeps the key whose remaining TTL strictly exceeds the running
maximum. -/
def getCacheStats (keys : List String) (valueOf : String → Option String)
    (ttlOf : String → ℤ) : CacheStats :=
  let totalKeys := keys.length
  let estimatedSize : ℤ :=
    if 0 < keys.length then
      let sampleKeys := keys.take (min 10 keys.length)
      let sampled : ℕ := (sampleKeys.map (fun k =>
        match valueOf k with
        | some v => v.length
        | none => 0)).sum
      jsRound ((sampled : ℚ) / (sampleKeys.length : ℚ) * (totalKeys : ℚ))
    else 0
  let oldest :=
    ((keys.take 100).foldl (fun acc key =>
        let ttl := ttlOf key
        if ttl > acc.2 then (some key, ttl) else acc)
      ((none : Option String), (0 : ℤ))).1
  { totalKeys := totalKeys, estimatedSize := estimatedSize, oldestKey := oldest }

end MatchCacheService

/-- The song payload stored in and served from the song cache (only the
fields the cache logic inspects are carried). -/
structure CachedSong where
  id : String
  name : String
deriving DecidableEq

/-- A row of the `songCache` table: the expiry column and the parsed
`data` payload. -/
structure SongRow where
  expiresAt : ℤ
  song : CachedSong
deriving DecidableEq

namespace SongCacheService

/-- `getCachedSong`: a store read failure is caught and treated as a miss;
a stored row with `expiresAt < now` is deleted and treated as a miss.
Returns the cached song (if any) and whether an expired row was deleted. -/
def getCachedSong (readResult : KVRead (Option SongRow)) (now : ℤ) :
    Option CachedSong × Bool :=
  match readResult with
  | .err => (none, false)
  | .ok none => (none, false)
  | .ok (some row) =>
    if row.expiresAt < now then (none, true)
    else (some row.song, false)

/-- The observable outcome of `getSongById`: the returned (or propagated
upstream-error) result, whether the external source was contacted, whether
an expired row was deleted, and whether a cache write was attempted. -/
structure SongByIdOutcome where
  result : Except Unit CachedSong
  fetched : Bool
  deletedExpired : Bool
  wroteCache : Bool

/-- `getSongById`: try the cache; on miss fetch from the external source
(an upstream failure is propagated), store the fetched song — a cache
write failure (`writeResult`) is caught and never propagated — and return
the song. -/
def getSongById (readResult : KVRead (Option SongRow)) (now : ℤ)
    (fetchResult : KVRead CachedSong) (writeResult : KVRead Unit) : SongByIdOutcome :=
  match getCachedSong readResult now with
  | (some song, deleted) =>
    { result := .ok song, fetched := false, deletedExpired := deleted, wroteCache := false }
  | (none, deleted) =>
    match fetchResult with
    | .err =>
      { result := .error (), fetched := true, deletedExpired := deleted, wroteCache := false }
    | .ok song =>
      let _ := writeResult
      { result := .ok song, fetched := true, deletedExpired := deleted, wroteCache := true }

end SongCacheService

/-- The key distance exactly as the spec words it: take the position of
each key in the listed circle-of-fifths sequence C, G, D, A, E, B, F sharp,
C sharp, G sharp, D sharp, A sharp, F, and the minimum of the clockwise and
counter-clockwise step counts between the two positions.  Kept separate
from `circleDistance` (the transcription of the source loop) so the source
can be checked against the spec sentence. -/
def circleStepsSpec (k1 k2 : ℕ) : ℕ :=
  let seq : List ℕ := [0, 7, 2, 9, 4, 11, 6, 1, 8, 3, 10, 5]
  let p1 := seq.indexOf k1
  let p2 := seq.indexOf k2
  let clockwise := max p1 p2 - min p1 p2
  min clockwise (12 - clockwise)

/-- A valid feature vector with none of the optional metadata (the minimal
song of the repository's own edge-case test). -/
def songNoMetadata : AudioFeatures :=
  { valence := 0.8, energy := 0.7, danceability := 0.75, tempo := 120,
    acousticness := 0.3, key := 0, mode := 1, timeSignature := 4,
    loudness := -5, durationMs := 200000,
    genres := none, artist := none, releaseYear := none }

/-- A valid feature vector with all three optional metadata fields present
(the identical-songs fixture of the repository's test suite). -/
def songFull : AudioFeatures :=
  { valence := 0.8, energy := 0.7, danceability := 0.75, tempo := 120,
    acousticness := 0.3, key := 0, mode := 1, timeSignature := 4,
    loudness := -5, durationMs := 200000,
    genres := some ["pop", "dance-pop"], artist := some "Test Artist",
    releaseYear := some 2020 }

/-- A song payload as stored in the song cache. -/
def storedSong : CachedSong := { id := "song-1", name := "Stored Version" }

/-- A distinct song payload as the external source would return it. -/
def freshSong : CachedSong := { id := "song-1", name := "Fresh Version" }

/-! ### Helper lemmas: similarity of a song with itself -/

lemma continuousSimilarity_self (x : ℚ) : continuousSimilarity x x = 1 := by
  simp [continuousSimilarity]

lemma tempoSimilarity_self (t : ℚ) (h : t ≠ 0) : tempoSimilarity t t = 1 := by
  unfold tempoSimilarity
  rw [max_self, min_self, div_self h]
  norm_num [abs_of_nonneg]

lemma keySimilarity_self (k m : ℕ) : keySimilarity k m k m = 1 := by
  simp [keySimilarity]

lemma timeSignatureSimilarity_self (ts : ℕ) : timeSignatureSimilarity ts ts = 1 := by
  simp [timeSignatureSimilarity]

lemma loudnessSimilarity_self (db : ℚ) : loudnessSimilarity db db = 1 := by
  simp [loudnessSimilarity]

lemma durationSimilarity_self (ms : ℚ) : durationSimilarity ms ms = 1 := by
  simp [durationSimilarity]

lemma genreSimilarity_self (l : List String) (h : 0 < l.length) :
    genreSimilarity l l = 1 := by
  unfold genreSimilarity
  rw [if_neg (by omega)]
  show ((((l.map String.toLower).toFinset ∩ (l.map String.toLower).toFinset).card : ℚ) /
    (((l.map String.toLower).toFinset ∪ (l.map String.toLower).toFinset).card : ℚ)) = 1
  rw [Finset.inter_self, Finset.union_self]
  have hl : l ≠ [] := List.length_pos.mp h
  have hne : (l.map String.toLower).toFinset ≠ ∅ := by
    simp [hl]
  have hcard : ((l.map String.toLower).toFinset.card : ℚ) ≠ 0 := by
    exact_mod_cast fun hc => hne (Finset.card_eq_zero.mp hc)
  exact div_self hcard

lemma artistSimilarity_self (a : Option String) (h : strTruthy a = true) :
    artistSimilarity a a = 1 := by
  simp [artistSimilarity, h]

lemma eraSimilarity_self (y : Option ℕ) (h : natTruthy y = true) :
    eraSimilarity y y = 1 := by
  simp [eraSimilarity, h]

/-! ### Helper lemmas: every similarity primitive is bounded in [0, 1] -/

lemma continuousSimilarity_bounds {a b : ℚ} (ha0 : 0 ≤ a) (ha1 : a ≤ 1)
    (hb0 : 0 ≤ b) (hb1 : b ≤ 1) :
    0 ≤ continuousSimilarity a b ∧ continuousSimilarity a b ≤ 1 := by
  unfold continuousSimilarity
  have h1 : |a - b| ≤ 1 := by
    rw [abs_sub_le_iff]
    constructor <;> linarith
  have h2 := abs_nonneg (a - b)
  constructor <;> linarith

lemma tempoSimilarity_bounds (a b : ℚ) :
    0 ≤ tempoSimilarity a b ∧ tempoSimilarity a b ≤ 1 := by
  unfold tempoSimilarity
  dsimp only
  split
  · norm_num
  · refine ⟨le_max_left 0 _, max_le (by norm_num) ?_⟩
    have : 0 ≤ |a - b| / 50 := by positivity
    linarith

lemma circleDistance_le_six {i j : ℕ} (hi : i < 12) (hj : j < 12) :
    circleDistance i j ≤ 6 := by
  have h : ∀ x y : Fin 12, circleDistance x.val y.val ≤ 6 := by decide
  exact h ⟨i, hi⟩ ⟨j, hj⟩

lemma keySimilarity_bounds {k1 k2 m1 m2 : ℕ} (hk1 : k1 < 12) (hk2 : k2 < 12) :
    0 ≤ keySimilarity k1 m1 k2 m2 ∧ keySimilarity k1 m1 k2 m2 ≤ 1 := by
  unfold keySimilarity
  split
  · norm_num
  · split
    · norm_num
    · have hle : (circleDistance k1 k2 : ℚ) ≤ 6 := by
        exact_mod_cast circleDistance_le_six hk1 hk2
      have hge : (0 : ℚ) ≤ (circleDistance k1 k2 : ℚ) := by positivity
      have h1 : (0 : ℚ) ≤ 1 - (circleDistance k1 k2 : ℚ) / 6 := by linarith
      have h2 : (1 : ℚ) - (circleDistance k1 k2 : ℚ) / 6 ≤ 1 := by linarith
      split
      · exact ⟨h1, h2⟩
      · constructor <;> nlinarith

lemma timeSignatureSimilarity_bounds (ts1 ts2 : ℕ) :
    0 ≤ timeSignatureSimilarity ts1 ts2 ∧ timeSignatureSimilarity ts1 ts2 ≤ 1 := by
  unfold timeSignatureSimilarity
  split
  · norm_num
  · split <;> norm_num

lemma loudnessSimilarity_bounds {a b : ℚ} (ha0 : -60 ≤ a) (ha1 : a ≤ 0)
    (hb0 : -60 ≤ b) (hb1 : b ≤ 0) :
    0 ≤ loudnessSimilarity a b ∧ loudnessSimilarity a b ≤ 1 := by
  unfold loudnessSimilarity
  dsimp only
  have h1 : |(a + 60) / 60 - (b + 60) / 60| ≤ 1 := by
    rw [abs_sub_le_iff]
    constructor <;> linarith
  have h2 := abs_nonneg ((a + 60) / 60 - (b + 60) / 60)
  constructor <;> linarith

lemma durationSimilarity_bounds (a b : ℚ) :
    0 ≤ durationSimilarity a b ∧ durationSimilarity a b ≤ 1 := by
  unfold durationSimilarity
  dsimp only
  split
  · norm_num
  · split
    · norm_num
    · split
      · norm_num
      · refine ⟨le_max_left 0 _, max_le (by norm_num) ?_⟩
        have : 0 ≤ |a - b| / 1000 / 300 := by positivity
        linarith

lemma genreSimilarity_bounds (l1 l2 : List String) :
    0 ≤ genreSimilarity l1 l2 ∧ genreSimilarity l1 l2 ≤ 1 := by
  unfold genreSimilarity
  split
  · norm_num
  · rename_i hne
    push_neg at hne
    show 0 ≤ (((l1.map String.toLower).toFinset ∩ (l2.map String.toLower).toFinset).card : ℚ) /
        (((l1.map String.toLower).toFinset ∪ (l2.map String.toLower).toFinset).card : ℚ) ∧
      (((l1.map String.toLower).toFinset ∩ (l2.map String.toLower).toFinset).card : ℚ) /
        (((l1.map String.toLower).toFinset ∪ (l2.map String.toLower).toFinset).card : ℚ) ≤ 1
    have hl1 : l1 ≠ [] := fun he => hne.1 (by simp [he])
    have hpos : 0 < ((l1.map String.toLower).toFinset ∪ (l2.map String.toLower).toFinset).card := by
      refine Finset.card_pos.mpr ?_
      obtain ⟨x, hx⟩ := List.exists_mem_of_ne_nil l1 hl1
      exact ⟨String.toLower x, by simp; exact Or.inl ⟨x, hx, rfl⟩⟩
    have hposQ : (0 : ℚ) <
        (((l1.map String.toLower).toFinset ∪ (l2.map String.toLower).toFinset).card : ℚ) := by
      exact_mod_cast hpos
    constructor
    · positivity
    · rw [div_le_one hposQ]
      exact_mod_cast Finset.card_le_card Finset.inter_subset_union

lemma artistSimilarity_bounds (a1 a2 : Option String) :
    0 ≤ artistSimilarity a1 a2 ∧ artistSimilarity a1 a2 ≤ 1 := by
  unfold artistSimilarity
  split
  · norm_num
  · split <;> norm_num

lemma eraSimilarity_bounds (y1 y2 : Option ℕ) :
    0 ≤ eraSimilarity y1 y2 ∧ eraSimilarity y1 y2 ≤ 1 := by
  unfold eraSimilarity
  split
  · norm_num
  · dsimp only
    split
    · norm_num
    · refine ⟨le_max_left 0 _, max_le (by norm_num) ?_⟩
      have h : (0:ℚ) ≤
          |(((y1.getD 0 / 10) * 10 : ℕ) : ℚ) - (((y2.getD 0 / 10) * 10 : ℕ) : ℚ)| / 10 / 5 := by
        positivity
      linarith

/-! ### Helper lemmas: every similarity primitive is symmetric -/

lemma continuousSimilarity_comm (a b : ℚ) :
    continuousSimilarity a b = continuousSimilarity b a := by
  unfold continuousSimilarity
  rw [abs_sub_comm]

lemma tempoSimilarity_comm (a b : ℚ) :
    tempoSimilarity a b = tempoSimilarity b a := by
  unfold tempoSimilarity
  rw [max_comm, min_comm, abs_sub_comm]

lemma circleDistance_comm (i j : ℕ) : circleDistance i j = circleDistance j i := by
  simp only [circleDistance]
  omega

lemma keySimilarity_comm (k1 m1 k2 m2 : ℕ) :
    keySimilarity k1 m1 k2 m2 = keySimilarity k2 m2 k1 m1 := by
  by_cases hk : k1 = k2
  · subst hk
    by_cases hm : m1 = m2
    · subst hm
      rfl
    · have hm2 : ¬ m2 = m1 := fun h => hm h.symm
      simp [keySimilarity, hm, hm2]
  · have hk2 : ¬ k2 = k1 := fun h => hk h.symm
    simp only [keySimilarity, hk, hk2, false_and, if_false, if_neg hk, if_neg hk2]
    rw [circleDistance_comm]
    by_cases hm : m1 = m2
    · have hm2 : m2 = m1 := hm.symm
      rw [if_pos hm, if_pos hm2]
    · have hm2 : ¬ m2 = m1 := fun h => hm h.symm
      rw [if_neg hm, if_neg hm2]

lemma timeSignatureSimilarity_comm (a b : ℕ) :
    timeSignatureSimilarity a b = timeSignatureSimilarity b a := by
  by_cases he : a = b
  · subst he
    rfl
  · have he2 : ¬ b = a := fun h => he h.symm
    have hiff : ((a = 6 ∧ b = 3) ∨ (a = 3 ∧ b = 6)) ↔ ((b = 6 ∧ a = 3) ∨ (b = 3 ∧ a = 6)) := by
      tauto
    unfold timeSignatureSimilarity
    rw [if_neg he, if_neg he2]
    by_cases hp : (a = 6 ∧ b = 3) ∨ (a = 3 ∧ b = 6)
    · rw [if_pos hp, if_pos (hiff.mp hp)]
    · rw [if_neg hp, if_neg (fun h => hp (hiff.mpr h))]

lemma loudnessSimilarity_comm (a b : ℚ) :
    loudnessSimilarity a b = loudnessSimilarity b a := by
  unfold loudnessSimilarity
  dsimp only
  rw [abs_sub_comm]

lemma durationSimilarity_comm (a b : ℚ) :
    durationSimilarity a b = durationSimilarity b a := by
  unfold durationSimilarity
  rw [abs_sub_comm]

lemma genreSimilarity_comm (l1 l2 : List String) :
    genreSimilarity l1 l2 = genreSimilarity l2 l1 := by
  unfold genreSimilarity
  by_cases h : l1.length = 0 ∨ l2.length = 0
  · rw [if_pos h, if_pos (by tauto)]
  · rw [if_neg h, if_neg (by tauto)]
    dsimp only
    rw [Finset.inter_comm, Finset.union_comm]

lemma artistSimilarity_comm (a1 a2 : Option String) :
    artistSimilarity a1 a2 = artistSimilarity a2 a1 := by
  by_cases heq : a1 = a2
  · subst heq
    rfl
  · unfold artistSimilarity
    by_cases h : (!strTruthy a1) = true ∨ (!strTruthy a2) = true
    · rw [if_pos h, if_pos (Or.symm h)]
    · rw [if_neg h, if_neg (fun h2 => h (Or.symm h2))]
      rw [if_neg heq, if_neg (fun h2 => heq h2.symm)]

lemma eraSimilarity_comm (y1 y2 : Option ℕ) :
    eraSimilarity y1 y2 = eraSimilarity y2 y1 := by
  by_cases heq : y1 = y2
  · subst heq
    rfl
  · unfold eraSimilarity
    by_cases h : (!natTruthy y1) = true ∨ (!natTruthy y2) = true
    · rw [if_pos h, if_pos (Or.symm h)]
    · rw [if_neg h, if_neg (fun h2 => h (Or.symm h2))]
      dsimp only
      by_cases he : (((y1.getD 0 / 10) * 10 : ℕ) : ℚ) = (((y2.getD 0 / 10) * 10 : ℕ) : ℚ)
      · rw [if_pos he, if_pos he.symm]
      · rw [if_neg he, if_neg (fun h2 => he h2.symm), abs_sub_comm]

lemma calculateConfidence_comm (f1 f2 : AudioFeatures) :
    calculateConfidence f1 f2 = calculateConfidence f2 f1 := by
  unfold calculateConfidence
  rw [Bool.and_comm (hasGenres f1), Bool.and_comm (hasArtist f1), Bool.and_comm (hasYear f1)]

lemma calculateLayer1_score_comm (f1 f2 : AudioFeatures) :
    (calculateLayer1 f1 f2).score = (calculateLayer1 f2 f1).score := by
  unfold calculateLayer1
  dsimp only
  rw [continuousSimilarity_comm f1.valence, continuousSimilarity_comm f1.energy,
    continuousSimilarity_comm f1.danceability, tempoSimilarity_comm f1.tempo,
    continuousSimilarity_comm f1.acousticness]

lemma calculateLayer2_score_comm (f1 f2 : AudioFeatures) :
    (calculateLayer2 f1 f2).score = (calculateLayer2 f2 f1).score := by
  unfold calculateLayer2
  dsimp only
  rw [keySimilarity_comm f1.key, timeSignatureSimilarity_comm f1.timeSignature,
    loudnessSimilarity_comm f1.loudness, durationSimilarity_comm f1.durationMs]

lemma calculateLayer3_score_comm (f1 f2 : AudioFeatures) :
    (calculateLayer3 f1 f2).score = (calculateLayer3 f2 f1).score := by
  unfold calculateLayer3
  dsimp only
  rw [genreSimilarity_comm, artistSimilarity_comm, eraSimilarity_comm]

/-! ### Helper lemmas: layer scores and confidence are bounded -/

lemma calculateLayer1_score_bounds {f1 f2 : AudioFeatures}
    (h1 : ValidFeatures f1) (h2 : ValidFeatures f2) :
    0 ≤ (calculateLayer1 f1 f2).score ∧ (calculateLayer1 f1 f2).score ≤ 1 := by
  obtain ⟨hv10, hv11, he10, he11, hd10, hd11, ha10, ha11, -, -, -, -, -, -⟩ := h1
  obtain ⟨hv20, hv21, he20, he21, hd20, hd21, ha20, ha21, -, -, -, -, -, -⟩ := h2
  obtain ⟨hv0, hv1⟩ := continuousSimilarity_bounds hv10 hv11 hv20 hv21
  obtain ⟨he0, he1⟩ := continuousSimilarity_bounds he10 he11 he20 he21
  obtain ⟨hd0, hd1⟩ := continuousSimilarity_bounds hd10 hd11 hd20 hd21
  obtain ⟨ht0, ht1⟩ := tempoSimilarity_bounds f1.tempo f2.tempo
  obtain ⟨ha0, ha1⟩ := continuousSimilarity_bounds ha10 ha11 ha20 ha21
  unfold calculateLayer1
  dsimp only
  constructor
  · apply div_nonneg _ (by norm_num)
    nlinarith
  · rw [div_le_one (by norm_num)]
    nlinarith

lemma calculateLayer2_score_bounds {f1 f2 : AudioFeatures}
    (h1 : ValidFeatures f1) (h2 : ValidFeatures f2) :
    0 ≤ (calculateLayer2 f1 f2).score ∧ (calculateLayer2 f1 f2).score ≤ 1 := by
  obtain ⟨-, -, -, -, -, -, -, -, -, hk1, -, hl10, hl11, -⟩ := h1
  obtain ⟨-, -, -, -, -, -, -, -, -, hk2, -, hl20, hl21, -⟩ := h2
  obtain ⟨hk0, hk1b⟩ := @keySimilarity_bounds f1.key f2.key f1.mode f2.mode hk1 hk2
  obtain ⟨hts0, hts1⟩ := timeSignatureSimilarity_bounds f1.timeSignature f2.timeSignature
  obtain ⟨hl0, hl1⟩ := loudnessSimilarity_bounds hl10 hl11 hl20 hl21
  obtain ⟨hd0, hd1⟩ := durationSimilarity_bounds f1.durationMs f2.durationMs
  unfold calculateLayer2
  dsimp only
  constructor
  · apply div_nonneg _ (by norm_num)
    nlinarith
  · rw [div_le_one (by norm_num)]
    nlinarith

lemma calculateLayer3_score_bounds (f1 f2 : AudioFeatures) :
    0 ≤ (calculateLayer3 f1 f2).score ∧ (calculateLayer3 f1 f2).score ≤ 1 := by
  obtain ⟨hg0, hg1⟩ := genreSimilarity_bounds (f1.genres.getD []) (f2.genres.getD [])
  obtain ⟨ha0, ha1⟩ := artistSimilarity_bounds f1.artist f2.artist
  obtain ⟨he0, he1⟩ := eraSimilarity_bounds f1.releaseYear f2.releaseYear
  unfold calculateLayer3
  dsimp only
  constructor
  · apply div_nonneg _ (by norm_num)
    nlinarith
  · rw [div_le_one (by norm_num)]
    nlinarith

lemma calculateConfidence_bounds (f1 f2 : AudioFeatures) :
    9/12 ≤ calculateConfidence f1 f2 ∧ calculateConfidence f1 f2 ≤ 1 := by
  unfold calculateConfidence
  cases hasGenres f1 && hasGenres f2 <;> cases hasArtist f1 && hasArtist f2 <;>
    cases hasYear f1 && hasYear f2 <;> norm_num

/-! ### Claim theorems -/

/-- C3: for any two song ids the result-cache key is order-independent:
`getCacheKey A B = getCacheKey B A`, so `getMatch` invoked with the ids in
either order addresses the same cache entry. -/
theorem cache_key_symmetric (a b : String) :
    MatchCacheService.getCacheKey a b = MatchCacheService.getCacheKey b a := by
  unfold MatchCacheService.getCacheKey
  rcases le_or_lt a b with h | h
  · rcases eq_or_lt_of_le h with rfl | h2
    · rfl
    · rw [if_pos h, if_neg (not_le.mpr h2)]
  · rw [if_neg (not_le.mpr h), if_pos h.le]

/-- C5: for keys in 0..11, `keySimilarity` returns 1 on an exact key-mode
match, exactly 0.7 on same key with different modes, and otherwise
`1 - d/6` (times 0.8 when the modes differ) with `d` the minimum of the
clockwise and counter-clockwise step counts on the circle-of-fifths
ordering (`circleStepsSpec`); in particular C major to G major scores
higher than C major to F-sharp major. -/
theorem key_similarity_spec (k1 k2 m1 m2 : ℕ) (hk1 : k1 < 12) (hk2 : k2 < 12)
    (hm1 : m1 ≤ 1) (hm2 : m2 ≤ 1) :
    (k1 = k2 → m1 = m2 → keySimilarity k1 m1 k2 m2 = 1)
    ∧ (k1 = k2 → m1 ≠ m2 → keySimilarity k1 m1 k2 m2 = 0.7)
    ∧ (k1 ≠ k2 → keySimilarity k1 m1 k2 m2 =
        (1 - (circleStepsSpec k1 k2 : ℚ) / 6) * (if m1 = m2 then 1 else 0.8))
    ∧ keySimilarity 0 1 7 1 > keySimilarity 0 1 6 1 := by
  refine ⟨?_, ?_, ?_, ?_⟩
  · intro hk hm
    simp [keySimilarity, hk, hm]
  · intro hk hm
    simp [keySimilarity, hk, hm]
  · intro hk
    have hsteps : (circleStepsSpec k1 k2 : ℚ) = (circleDistance k1 k2 : ℚ) := rfl
    by_cases hm : m1 = m2 <;> simp [keySimilarity, hk, hm, hsteps]
  · have h7 : keySimilarity 0 1 7 1 = 1 - 1/6 := by
      norm_num [keySimilarity, show circleDistance 0 7 = 1 from rfl]
    have h6 : keySimilarity 0 1 6 1 = 0 := by
      norm_num [keySimilarity, show circleDistance 0 6 = 6 from rfl]
    rw [h7, h6]
    norm_num

/-- Witness for C5 at concrete keys: C major vs C minor is exactly 0.7, and
the C-G vs C-F-sharp comparison. -/
theorem key_similarity_spec_witness :
    keySimilarity 0 1 0 0 = 0.7 ∧ keySimilarity 0 1 7 1 > keySimilarity 0 1 6 1 :=
  ⟨(key_similarity_spec 0 0 1 0 (by norm_num) (by norm_num) (by norm_num)
      (by norm_num)).2.1 rfl (by norm_num),
   (key_similarity_spec 0 7 1 1 (by norm_num) (by norm_num) (by norm_num)
      (by norm_num)).2.2.2⟩

/-- C6: for positive tempos, `tempoSimilarity` returns exactly 0.7 in the
octave window (ratio within 0.1 of 2 or 0.5) and `max 0 (1 - |a-b|/50)`
otherwise; consequently `tempoSimilarity 120 240` lies in [0.65, 0.75] and
`tempoSimilarity 120 125 > tempoSimilarity 120 80`. -/
theorem tempo_similarity_spec (a b : ℚ) (ha : 0 < a) (hb : 0 < b) :
    (tempoSimilarity a b =
      if |max a b / min a b - 2| < 0.1 ∨ |max a b / min a b - 0.5| < 0.1 then 0.7
      else max 0 (1 - |a - b| / 50))
    ∧ (13/20 ≤ tempoSimilarity 120 240 ∧ tempoSimilarity 120 240 ≤ 3/4)
    ∧ tempoSimilarity 120 80 < tempoSimilarity 120 125 := by
  have h240 : tempoSimilarity 120 240 = 0.7 := by
    unfold tempoSimilarity
    rw [max_eq_right (by norm_num : (120:ℚ) ≤ 240), min_eq_left (by norm_num : (120:ℚ) ≤ 240)]
    norm_num
  have h125 : tempoSimilarity 120 125 = 0.9 := by
    unfold tempoSimilarity
    rw [max_eq_right (by norm_num : (120:ℚ) ≤ 125), min_eq_left (by norm_num : (120:ℚ) ≤ 125)]
    norm_num [abs_of_nonneg, abs_of_nonpos]
  have h80 : tempoSimilarity 120 80 = 0.2 := by
    unfold tempoSimilarity
    rw [max_eq_left (by norm_num : (80:ℚ) ≤ 120), min_eq_right (by norm_num : (80:ℚ) ≤ 120)]
    norm_num [abs_of_nonneg, abs_of_nonpos]
  refine ⟨rfl, ?_, ?_⟩
  · rw [h240]
    norm_num
  · rw [h80, h125]
    norm_num

/-- Witness for C6 at the concrete tempos named in the claim. -/
theorem tempo_similarity_spec_witness :
    (13/20 ≤ tempoSimilarity 120 240 ∧ tempoSimilarity 120 240 ≤ 3/4)
    ∧ tempoSimilarity 120 80 < tempoSimilarity 120 125 :=
  ⟨(tempo_similarity_spec 120 240 (by norm_num) (by norm_num)).2.1,
   (tempo_similarity_spec 120 240 (by norm_num) (by norm_num)).2.2⟩

/-- C7: `calculateConfidence` is `(9 + g + a + y)/12` where the three
indicators are 1 exactly when both songs have the corresponding optional
signal (genre list non-empty, artist present and non-empty, release year
present and non-zero — JS truthiness), hence confidence always lies in
[9/12, 1]; and `calculateMatch` reports exactly this value. -/
theorem confidence_formula (f1 f2 : AudioFeatures) :
    (calculateConfidence f1 f2 =
      (9 + (if hasGenres f1 && hasGenres f2 then (1:ℚ) else 0)
        + (if hasArtist f1 && hasArtist f2 then (1:ℚ) else 0)
        + (if hasYear f1 && hasYear f2 then (1:ℚ) else 0)) / 12)
    ∧ 9/12 ≤ calculateConfidence f1 f2 ∧ calculateConfidence f1 f2 ≤ 1
    ∧ (calculateMatch f1 f2).confidence = calculateConfidence f1 f2 := by
  refine ⟨?_, (calculateConfidence_bounds f1 f2).1, (calculateConfidence_bounds f1 f2).2, rfl⟩
  unfold calculateConfidence
  cases hasGenres f1 && hasGenres f2 <;> cases hasArtist f1 && hasArtist f2 <;>
    cases hasYear f1 && hasYear f2 <;> norm_num

/-- C9 (code bug): on two keys with remaining TTLs 100 and 200 seconds, the
`getCacheStats` oldest-key loop reports the key with the greater remaining
TTL — the most recently cached one — although its own comment and the spec
describe the key cached longest (least remaining TTL). -/
theorem oldest_key_codebug :
    (MatchCacheService.getCacheStats ["match:a:b", "match:c:d"]
      (fun _ => some "vv")
      (fun k => if k = "match:a:b" then 100 else 200)).oldestKey = some "match:c:d"
    ∧ (100 : ℤ) < 200 := by
  exact ⟨rfl, by norm_num⟩

/-- C2: a key-value store failure is never propagated: a failed result-cache
read behaves as a miss and `getMatch` returns the freshly computed
`calculateMatch`; the fire-and-forget result-cache write outcome never
changes what `getMatch` returns; a failed song-cache read still yields the
fetched song; and the song-cache write outcome never changes what
`getSongById` returns. -/
theorem cache_failure_never_propagates :
    ∀ (f1 f2 : AudioFeatures) (bypass : Bool) (w w' : KVRead Unit)
      (r : KVRead (Option MatchResult)) (rr : KVRead (Option SongRow)) (now : ℤ)
      (s : CachedSong) (fetch : KVRead CachedSong),
      (MatchCacheService.getMatch .err w f1 f2 bypass = calculateMatch f1 f2)
      ∧ (MatchCacheService.getMatch r w f1 f2 bypass =
          MatchCacheService.getMatch r w' f1 f2 bypass)
      ∧ ((SongCacheService.getSongById .err now (.ok s) w).result = .ok s)
      ∧ (SongCacheService.getSongById rr now fetch w =
          SongCacheService.getSongById rr now fetch w') := by
  intro f1 f2 bypass w w' r rr now s fetch
  refine ⟨?_, ?_, rfl, ?_⟩
  · cases bypass <;> rfl
  · cases bypass
    · cases r with
      | err => rfl
      | ok v => cases v <;> rfl
    · rfl
  · cases rr with
    | err => rfl
    | ok v =>
      cases v with
      | none => rfl
      | some row =>
        simp only [SongCacheService.getSongById, SongCacheService.getCachedSong]

/-- C8 (counterexample): a stored row whose `expiresAt` equals the current
time is returned as a cache hit without contacting the source, although the
claim demands a hit only when `expiresAt` is strictly greater than now. -/
theorem song_cache_expiry_counterexample :
    ((SongCacheService.getSongById (.ok (some ⟨100, storedSong⟩)) 100
        (.ok freshSong) (.ok ())).result = .ok storedSong)
    ∧ ((SongCacheService.getSongById (.ok (some ⟨100, storedSong⟩)) 100
        (.ok freshSong) (.ok ())).fetched = false)
    ∧ ((SongCacheService.getSongById (.ok (some ⟨100, storedSong⟩)) 100
        (.ok freshSong) (.ok ())).deletedExpired = false)
    ∧ ¬ ((100 : ℤ) > 100) :=
  ⟨rfl, rfl, rfl, by norm_num⟩

/-- C8 (amended): `getSongById` returns the stored entry without contacting
the source exactly when a stored row has `expiresAt ≥ now` (not strictly
greater); a stored row with `expiresAt < now` is deleted and the operation
proceeds as a miss: it fetches from the source, stores the result, and
returns it. -/
theorem song_cache_expiry_amended (stored : Option SongRow) (now : ℤ)
    (s : CachedSong) (w : KVRead Unit) :
    (((SongCacheService.getSongById (.ok stored) now (.ok s) w).fetched = false)
      ↔ ∃ row, stored = some row ∧ now ≤ row.expiresAt)
    ∧ (∀ row, stored = some row → now ≤ row.expiresAt →
        SongCacheService.getSongById (.ok stored) now (.ok s) w =
          ⟨.ok row.song, false, false, false⟩)
    ∧ (∀ row, stored = some row → row.expiresAt < now →
        SongCacheService.getSongById (.ok stored) now (.ok s) w =
          ⟨.ok s, true, true, true⟩)
    ∧ (stored = none →
        SongCacheService.getSongById (.ok stored) now (.ok s) w =
          ⟨.ok s, true, false, true⟩) := by
  refine ⟨?_, ?_, ?_, ?_⟩
  · cases stored with
    | none => simp [SongCacheService.getSongById, SongCacheService.getCachedSong]
    | some row =>
      simp only [SongCacheService.getSongById, SongCacheService.getCachedSong]
      split_ifs with h <;> simp <;> try omega
  · rintro row rfl hle
    simp only [SongCacheService.getSongById, SongCacheService.getCachedSong]
    rw [if_neg (by omega)]
  · rintro row rfl hlt
    simp only [SongCacheService.getSongById, SongCacheService.getCachedSong]
    rw [if_pos hlt]
  · rintro rfl
    rfl

/-- Witness for the amended C8: a still-valid row (expires at 200, now 100)
is served from the cache, and an expired row (expires at 50, now 100) is
deleted and replaced by the fetched song. -/
theorem song_cache_expiry_witness :
    (SongCacheService.getSongById (.ok (some ⟨200, storedSong⟩)) 100
      (.ok freshSong) (.ok ()) = ⟨.ok storedSong, false, false, false⟩)
    ∧ (SongCacheService.getSongById (.ok (some ⟨50, storedSong⟩)) 100
      (.ok freshSong) (.ok ()) = ⟨.ok freshSong, true, true, true⟩) :=
  ⟨(song_cache_expiry_amended (some ⟨200, storedSong⟩) 100 freshSong
      (.ok ())).2.1 ⟨200, storedSong⟩ rfl (by norm_num),
   (song_cache_expiry_amended (some ⟨50, storedSong⟩) 100 freshSong
      (.ok ())).2.2.1 ⟨50, storedSong⟩ rfl (by norm_num)⟩

/-- C1 (counterexample): the identity property fails for a valid vector
without optional metadata — the three neutral-0.5 metadata similarities pull
the self-match score down to 93, not 100. -/
theorem identity_match_counterexample :
    ValidFeatures songNoMetadata
    ∧ (calculateMatch songNoMetadata songNoMetadata).overallScore = 93
    ∧ ¬ ((calculateMatch songNoMetadata songNoMetadata).overallScore = 100) := by
  have h93 : (calculateMatch songNoMetadata songNoMetadata).overallScore = 93 := by
    norm_num [calculateMatch, calculateLayer1, calculateLayer2, calculateLayer3,
      continuousSimilarity, tempoSimilarity, keySimilarity, timeSignatureSimilarity,
      loudnessSimilarity, durationSimilarity, genreSimilarity, artistSimilarity,
      eraSimilarity, strTruthy, natTruthy, jsRound, abs_of_nonneg, songNoMetadata]
  exact ⟨by norm_num [ValidFeatures, songNoMetadata], h93, by rw [h93]; norm_num⟩

/-- C1 (amended): for every valid vector whose three optional fields are all
present (non-empty genre list, non-empty artist, non-zero release year),
scoring the vector against itself yields overall score 100 and confidence
above 0.9. -/
theorem identity_match (f : AudioFeatures) (hv : ValidFeatures f)
    (hg : hasGenres f = true) (ha : hasArtist f = true) (hy : hasYear f = true) :
    (calculateMatch f f).overallScore = 100 ∧ (calculateMatch f f).confidence > 0.9 := by
  obtain ⟨-, -, -, -, -, -, -, -, htempo, -, -, -, -, -⟩ := hv
  have htne : f.tempo ≠ 0 := ne_of_gt htempo
  have hL1 : (calculateLayer1 f f).score = 1 := by
    unfold calculateLayer1
    dsimp only
    rw [continuousSimilarity_self, continuousSimilarity_self, continuousSimilarity_self,
      tempoSimilarity_self _ htne, continuousSimilarity_self]
    norm_num
  have hL2 : (calculateLayer2 f f).score = 1 := by
    unfold calculateLayer2
    dsimp only
    rw [keySimilarity_self, timeSignatureSimilarity_self, loudnessSimilarity_self,
      durationSimilarity_self]
    norm_num
  have hL3 : (calculateLayer3 f f).score = 1 := by
    rcases hgen : f.genres with _ | l
    · simp [hasGenres, hgen] at hg
    · have hlen : 0 < l.length := by
        simpa [hasGenres, hgen] using hg
      unfold calculateLayer3
      dsimp only
      rw [hgen]
      rw [show (Option.getD (some l) [] : List String) = l from rfl]
      rw [genreSimilarity_self l hlen, artistSimilarity_self _ ha, eraSimilarity_self _ hy]
      norm_num
  constructor
  · show jsRound (((calculateLayer1 f f).score * 0.6 + (calculateLayer2 f f).score * 0.25 +
      (calculateLayer3 f f).score * 0.15) * 100) = 100
    rw [hL1, hL2, hL3]
    norm_num [jsRound]
  · show calculateConfidence f f > 0.9
    unfold calculateConfidence
    rw [hg, ha, hy]
    norm_num

/-- Witness for the amended C1 at the test suite's fully-populated song. -/
theorem identity_match_witness :
    (calculateMatch songFull songFull).overallScore = 100
    ∧ (calculateMatch songFull songFull).confidence > 0.9 :=
  identity_match songFull (by norm_num [ValidFeatures, songFull]) rfl rfl rfl

/-- C4: for every pair of valid feature vectors, the overall score is an
integer in [0, 100] and the confidence lies in [0, 1]. -/
theorem match_score_bounded (f1 f2 : AudioFeatures)
    (h1 : ValidFeatures f1) (h2 : ValidFeatures f2) :
    0 ≤ (calculateMatch f1 f2).overallScore ∧ (calculateMatch f1 f2).overallScore ≤ 100
    ∧ 0 ≤ (calculateMatch f1 f2).confidence ∧ (calculateMatch f1 f2).confidence ≤ 1 := by
  obtain ⟨hL10, hL11⟩ := calculateLayer1_score_bounds h1 h2
  obtain ⟨hL20, hL21⟩ := calculateLayer2_score_bounds h1 h2
  obtain ⟨hL30, hL31⟩ := calculateLayer3_score_bounds f1 f2
  obtain ⟨hc0, hc1⟩ := calculateConfidence_bounds f1 f2
  have hconf : (calculateMatch f1 f2).confidence = calculateConfidence f1 f2 := rfl
  have hscore : (calculateMatch f1 f2).overallScore =
      jsRound (((calculateLayer1 f1 f2).score * 0.6 + (calculateLayer2 f1 f2).score * 0.25 +
        (calculateLayer3 f1 f2).score * 0.15) * 100) := rfl
  refine ⟨?_, ?_, by rw [hconf]; linarith, by rw [hconf]; linarith⟩
  · rw [hscore]
    unfold jsRound
    apply Int.le_floor.mpr
    push_cast
    nlinarith
  · rw [hscore]
    unfold jsRound
    have hle : ((calculateLayer1 f1 f2).score * 0.6 + (calculateLayer2 f1 f2).score * 0.25 +
        (calculateLayer3 f1 f2).score * 0.15) * 100 + 1/2 ≤ 201/2 := by nlinarith
    calc ⌊((calculateLayer1 f1 f2).score * 0.6 + (calculateLayer2 f1 f2).score * 0.25 +
          (calculateLayer3 f1 f2).score * 0.15) * 100 + 1/2⌋
        ≤ ⌊(201/2 : ℚ)⌋ := Int.floor_mono hle
      _ = 100 := by norm_num

/-- Witness for C4 at a concrete valid pair. -/
theorem match_score_bounded_witness :
    0 ≤ (calculateMatch songFull songNoMetadata).overallScore
    ∧ (calculateMatch songFull songNoMetadata).overallScore ≤ 100
    ∧ 0 ≤ (calculateMatch songFull songNoMetadata).confidence
    ∧ (calculateMatch songFull songNoMetadata).confidence ≤ 1 :=
  match_score_bounded songFull songNoMetadata
    (by norm_num [ValidFeatures, songFull]) (by norm_num [ValidFeatures, songNoMetadata])

/-- C10: swapping the two songs leaves the overall score, the confidence and
all three layer scores unchanged, while the explanation's details block is
computed from the first argument's raw features only. -/
theorem match_symmetric (f1 f2 : AudioFeatures) :
    ((calculateMatch f1 f2).overallScore = (calculateMatch f2 f1).overallScore)
    ∧ ((calculateMatch f1 f2).confidence = (calculateMatch f2 f1).confidence)
    ∧ ((calculateMatch f1 f2).layer1.score = (calculateMatch f2 f1).layer1.score)
    ∧ ((calculateMatch f1 f2).layer2.score = (calculateMatch f2 f1).layer2.score)
    ∧ ((calculateMatch f1 f2).layer3.score = (calculateMatch f2 f1).layer3.score)
    ∧ ((calculateMatch f1 f2).explanation.details =
        { mood := getMoodDescription f1.valence f1.energy
          rhythm := getRhythmDescription f1.tempo f1.danceability
          harmony := getHarmonyDescription f1.key f1.mode
          style := getStyleDescription f1.genres f1.artist }) := by
  have hL1 := calculateLayer1_score_comm f1 f2
  have hL2 := calculateLayer2_score_comm f1 f2
  have hL3 := calculateLayer3_score_comm f1 f2
  refine ⟨?_, calculateConfidence_comm f1 f2, hL1, hL2, hL3, rfl⟩
  show jsRound (((calculateLayer1 f1 f2).score * 0.6 + (calculateLayer2 f1 f2).score * 0.25 +
      (calculateLayer3 f1 f2).score * 0.15) * 100) =
    jsRound (((calculateLayer1 f2 f1).score * 0.6 + (calculateLayer2 f2 f1).score * 0.25 +
      (calculateLayer3 f2 f1).score * 0.15) * 100)
  rw [hL1, hL2, hL3]

end SongMatch
